import Mathlib

/-!
Verification of the travel-log data-collection application.

This development gives a shallow embedding of the application's client-side
logic: the trip submission form, the consent flow, the two trip-listing
fetches, the research view's filtering, statistics and CSV export, and the
top-level session/consent view state machine.  Backend effects (user lookup,
insert, upsert, select) are modelled by explicit outcome parameters, and each
handler becomes a pure function from its inputs and the backend outcome to the
resulting UI state (toasts shown, form contents, callbacks invoked, rows
persisted).
-/

namespace TravelLog

/-- A user as issued by the external auth provider; the app consumes id and email. -/
structure AppUser where
  id : String
  email : String
deriving DecidableEq, Repr

/-- A toast notice: title, description, and whether it uses the destructive variant. -/
structure Toast where
  title : String
  description : String
  destructive : Bool
deriving DecidableEq, Repr

/-! ## Trip submission form (`TripForm.tsx`) -/

/-- The seven controlled fields of the trip form, all strings. -/
structure TripFormState where
  trip_number : String
  origin : String
  destination : String
  mode : String
  start_time : String
  end_time : String
  companions : String
deriving DecidableEq, Repr

/-- The initial/reset form state: all seven fields empty. -/
def emptyTripForm : TripFormState :=
  { trip_number := "", origin := "", destination := "", mode := "",
    start_time := "", end_time := "", companions := "" }

/-- JS `s || null` on a string: empty string becomes `null` (`none`). -/
def orNull (s : String) : Option String :=
  if s = "" then none else some s

/-- The row payload sent to the `trips` insert. -/
structure TripData where
  user_id : String
  trip_number : Option String
  origin : String
  destination : String
  mode : String
  start_time : Option String
  end_time : Option String
  companions : Option String
deriving DecidableEq, Repr

/-- The `tripData` object built in `handleSubmit`: required fields as-is,
optional fields sent as `null` when empty. -/
def tripDataOf (u : AppUser) (t : TripFormState) : TripData :=
  { user_id := u.id
    trip_number := orNull t.trip_number
    origin := t.origin
    destination := t.destination
    mode := t.mode
    start_time := orNull t.start_time
    end_time := orNull t.end_time
    companions := orNull t.companions }

/-- Outcome of the backend `insert` call: success, an error object carrying a
message, or a thrown exception. -/
inductive InsertOutcome where
  | ok
  | err (message : String)
  | thrown
deriving DecidableEq, Repr

/-- Observable result of one run of the trip form's `handleSubmit`. -/
structure SubmitResult where
  /-- Number of backend calls performed (user lookup and insert). -/
  networkCalls : Nat
  toast : Option Toast
  form : TripFormState
  /-- Number of times `onTripSaved` was invoked. -/
  savedCallbacks : Nat
  /-- The row persisted by a successful insert, if any. -/
  persisted : Option TripData
deriving DecidableEq, Repr

/-- The validation notice of `handleSubmit`. -/
def missingInfoToast : Toast :=
  { title := "Missing Information"
    description := "Please fill in origin, destination, and mode of transport."
    destructive := true }

/-- The notice shown when no user session exists at submit time. -/
def authErrorToast : Toast :=
  { title := "Authentication Error"
    description := "Please login to save trips."
    destructive := true }

/-- The success notice after a trip insert. -/
def tripSavedToast : Toast :=
  { title := "Trip Saved Successfully"
    description := "Your trip data has been recorded for transportation research."
    destructive := false }

/-- The insert-failure notice: `error.message || "Failed to save trip data."`. -/
def tripErrorToast (message : String) : Toast :=
  { title := "Error"
    description := if message = "" then "Failed to save trip data." else message
    destructive := true }

/-- The notice shown by the catch-all handler of `handleSubmit`. -/
def unexpectedSaveToast : Toast :=
  { title := "Error"
    description := "An unexpected error occurred. Please try again."
    destructive := true }

/-- `TripForm.handleSubmit`: validate required fields, look up the user,
issue one insert, and on success reset the form and fire `onTripSaved`. -/
def handleSubmit (trip : TripFormState) (user : Option AppUser)
    (ins : InsertOutcome) : SubmitResult :=
  if trip.origin = "" ∨ trip.destination = "" ∨ trip.mode = "" then
    { networkCalls := 0, toast := some missingInfoToast, form := trip,
      savedCallbacks := 0, persisted := none }
  else
    match user with
    | none =>
      { networkCalls := 1, toast := some authErrorToast, form := trip,
        savedCallbacks := 0, persisted := none }
    | some u =>
      match ins with
      | .ok =>
        { networkCalls := 2, toast := some tripSavedToast, form := emptyTripForm,
          savedCallbacks := 1, persisted := some (tripDataOf u trip) }
      | .err message =>
        { networkCalls := 2, toast := some (tripErrorToast message), form := trip,
          savedCallbacks := 0, persisted := none }
      | .thrown =>
        { networkCalls := 2, toast := some unexpectedSaveToast, form := trip,
          savedCallbacks := 0, persisted := none }

/-- The transport mode labels offered by the form's select control. -/
def transportModes : List String :=
  ["Walking", "Bicycle", "Motorcycle", "Car", "Bus", "Train", "Metro",
   "Auto Rickshaw", "Taxi", "Other"]

/-- JS `String.prototype.toLowerCase` (ASCII range, as used here). -/
def jsToLowerCase (s : String) : String :=
  ⟨s.data.map Char.toLower⟩

/-- The values the mode select can store: each label lowercased. -/
def modeSelectValues : List String :=
  transportModes.map jsToLowerCase

/-- C1: a submission with empty origin, destination, or mode performs no
network call (neither user lookup nor insert), shows the validation notice,
leaves all seven form fields unchanged, fires no refresh callback, and
persists nothing. -/
theorem submit_invalid_no_network (trip : TripFormState) (user : Option AppUser)
    (ins : InsertOutcome)
    (h : trip.origin = "" ∨ trip.destination = "" ∨ trip.mode = "") :
    (handleSubmit trip user ins).networkCalls = 0 ∧
    (handleSubmit trip user ins).toast = some missingInfoToast ∧
    (handleSubmit trip user ins).form = trip ∧
    (handleSubmit trip user ins).savedCallbacks = 0 ∧
    (handleSubmit trip user ins).persisted = none := by
  unfold handleSubmit
  rw [if_pos h]
  exact ⟨rfl, rfl, rfl, rfl, rfl⟩

/-- C1 witness: the theorem applied to a concrete submission with empty origin. -/
theorem submit_invalid_no_network_witness :
    (handleSubmit { emptyTripForm with destination := "Office", mode := "car" }
        none InsertOutcome.ok).networkCalls = 0 ∧
    (handleSubmit { emptyTripForm with destination := "Office", mode := "car" }
        none InsertOutcome.ok).toast = some missingInfoToast ∧
    (handleSubmit { emptyTripForm with destination := "Office", mode := "car" }
        none InsertOutcome.ok).form =
      { emptyTripForm with destination := "Office", mode := "car" } ∧
    (handleSubmit { emptyTripForm with destination := "Office", mode := "car" }
        none InsertOutcome.ok).savedCallbacks = 0 ∧
    (handleSubmit { emptyTripForm with destination := "Office", mode := "car" }
        none InsertOutcome.ok).persisted = none :=
  submit_invalid_no_network _ _ _ (Or.inl rfl)

/-- C7 amended: a valid submission with an active session resets the form to
its empty defaults and fires the refresh callback exactly once when the insert
succeeds; when the insert returns an error with a non-empty message, that
message is surfaced in a notice, the form is preserved, and no callback fires
(an error with an empty message surfaces the generic fallback instead, per the
counterexample below). -/
theorem submit_insert_outcomes (trip : TripFormState) (u : AppUser)
    (message : String)
    (ho : trip.origin ≠ "") (hd : trip.destination ≠ "") (hm : trip.mode ≠ "")
    (hmsg : message ≠ "") :
    (handleSubmit trip (some u) InsertOutcome.ok).form = emptyTripForm ∧
    (handleSubmit trip (some u) InsertOutcome.ok).savedCallbacks = 1 ∧
    (handleSubmit trip (some u) (InsertOutcome.err message)).toast =
      some { title := "Error", description := message, destructive := true } ∧
    (handleSubmit trip (some u) (InsertOutcome.err message)).form = trip ∧
    (handleSubmit trip (some u) (InsertOutcome.err message)).savedCallbacks = 0 := by
  have hv : ¬(trip.origin = "" ∨ trip.destination = "" ∨ trip.mode = "") := by
    simp [ho, hd, hm]
  unfold handleSubmit
  rw [if_neg hv, if_neg hv]
  refine ⟨rfl, rfl, ?_, rfl, rfl⟩
  simp [tripErrorToast, hmsg]

/-- C7 witness: the theorem applied to a concrete valid trip and error message. -/
theorem submit_insert_outcomes_witness :
    (handleSubmit ⟨"T1", "Home", "Office", "car", "", "", ""⟩
        (some ⟨"user-1", "a@example.com"⟩) InsertOutcome.ok).form = emptyTripForm ∧
    (handleSubmit ⟨"T1", "Home", "Office", "car", "", "", ""⟩
        (some ⟨"user-1", "a@example.com"⟩) InsertOutcome.ok).savedCallbacks = 1 ∧
    (handleSubmit ⟨"T1", "Home", "Office", "car", "", "", ""⟩
        (some ⟨"user-1", "a@example.com"⟩)
        (InsertOutcome.err "permission denied")).toast =
      some { title := "Error", description := "permission denied",
             destructive := true } ∧
    (handleSubmit ⟨"T1", "Home", "Office", "car", "", "", ""⟩
        (some ⟨"user-1", "a@example.com"⟩)
        (InsertOutcome.err "permission denied")).form =
      ⟨"T1", "Home", "Office", "car", "", "", ""⟩ ∧
    (handleSubmit ⟨"T1", "Home", "Office", "car", "", "", ""⟩
        (some ⟨"user-1", "a@example.com"⟩)
        (InsertOutcome.err "permission denied")).savedCallbacks = 0 :=
  submit_insert_outcomes _ _ _ (by decide) (by decide) (by decide) (by decide)

/-- A demo user used to instantiate universally quantified theorems. -/
def demoUser : AppUser := { id := "user-1", email := "a@example.com" }

/-- C7 counterexample: a valid submission whose insert returns an error with
an empty message shows the generic fallback text `Failed to save trip data.`
(via `error.message || ...`), not the backend's message, so the claim that the
backend's error message is surfaced on every insert error fails here. -/
theorem submit_empty_error_message_not_surfaced :
    (handleSubmit ⟨"T1", "Home", "Office", "car", "", "", ""⟩ (some demoUser)
        (InsertOutcome.err "")).toast =
      some { title := "Error", description := "Failed to save trip data.",
             destructive := true } ∧
    (handleSubmit ⟨"T1", "Home", "Office", "car", "", "", ""⟩ (some demoUser)
        (InsertOutcome.err "")).toast ≠
      some { title := "Error", description := "", destructive := true } := by
  constructor
  · rfl
  · decide

/-- A concrete valid form submission selecting the auto-rickshaw mode value
offered by the select control. -/
def autoRickshawTrip : TripFormState :=
  { trip_number := "", origin := "Home", destination := "Office",
    mode := "auto rickshaw", start_time := "", end_time := "", companions := "" }

/-- Modelled from the spec: the enumerated mode set claimed in the data-model
section, which hyphenates the auto-rickshaw entry. -/
def specModeSet : List String :=
  ["walking", "bicycle", "motorcycle", "car", "bus", "train", "metro",
   "auto-rickshaw", "taxi", "other"]

/-- C8 counterexample: the select control offers the value `"auto rickshaw"`
(space, not hyphen), a submission with that mode persists a row with mode
`"auto rickshaw"`, and that value is not in the spec's enumerated set. -/
theorem persisted_mode_not_in_spec_set :
    "auto rickshaw" ∈ modeSelectValues ∧
    (handleSubmit autoRickshawTrip (some demoUser) InsertOutcome.ok).persisted =
      some (tripDataOf demoUser autoRickshawTrip) ∧
    (tripDataOf demoUser autoRickshawTrip).mode = "auto rickshaw" ∧
    "auto rickshaw" ∉ specModeSet := by
  decide

/-- C8 amended: every trip persisted by the submission flow has non-empty
origin, destination, and mode, and when the submitted mode is one of the
select control's values, the persisted mode is one of those values
(walking, bicycle, motorcycle, car, bus, train, metro, auto rickshaw,
taxi, other). -/
theorem persisted_trip_invariant (trip : TripFormState) (user : Option AppUser)
    (ins : InsertOutcome) (p : TripData)
    (hmode : trip.mode ∈ modeSelectValues)
    (hp : (handleSubmit trip user ins).persisted = some p) :
    p.origin ≠ "" ∧ p.destination ≠ "" ∧ p.mode ∈ modeSelectValues := by
  unfold handleSubmit at hp
  by_cases hv : trip.origin = "" ∨ trip.destination = "" ∨ trip.mode = ""
  · rw [if_pos hv] at hp
    exact absurd hp (by simp)
  · rw [if_neg hv] at hp
    push_neg at hv
    obtain ⟨ho, hd, _⟩ := hv
    cases user with
    | none => exact absurd hp (by simp)
    | some u =>
      cases ins with
      | ok =>
        simp only [Option.some.injEq] at hp
        subst hp
        exact ⟨ho, hd, hmode⟩
      | err message => exact absurd hp (by simp)
      | thrown => exact absurd hp (by simp)

/-- C8 amended witness: the invariant applied to the concrete auto-rickshaw
submission. -/
theorem persisted_trip_invariant_witness :
    (tripDataOf demoUser autoRickshawTrip).origin ≠ "" ∧
    (tripDataOf demoUser autoRickshawTrip).destination ≠ "" ∧
    (tripDataOf demoUser autoRickshawTrip).mode ∈ modeSelectValues :=
  persisted_trip_invariant autoRickshawTrip (some demoUser) InsertOutcome.ok
    (tripDataOf demoUser autoRickshawTrip) (by decide) rfl

/-! ## Consent flow (`ConsentPage.tsx`) -/

/-- Outcome of the backend `upsert` call on `profiles`: success, an error
object carrying a code and message, or a thrown exception. -/
inductive UpsertOutcome where
  | ok
  | err (code message : String)
  | thrown
deriving DecidableEq, Repr

/-- Observable result of one run of the consent page's `handleSubmit`. -/
structure ConsentResult where
  /-- The stored `profiles.consent` flag after the run. -/
  profileConsent : Bool
  /-- Whether `onConsentGiven` was invoked. -/
  granted : Bool
  /-- Whether the profile upsert was issued. -/
  upsertAttempted : Bool
  toast : Option Toast
deriving DecidableEq, Repr

/-- The notice shown when no user session exists at consent time. -/
def consentLoginToast : Toast :=
  { title := "Error", description := "Please login first.", destructive := true }

/-- The success notice after consent is recorded. -/
def consentRecordedToast : Toast :=
  { title := "Consent Recorded"
    description := "Thank you for participating in transportation research!"
    destructive := false }

/-- `ConsentPage.handleSubmit`: gated on the checkbox, aborts without a user,
otherwise upserts the profile with consent true and always proceeds to grant
access, ignoring upsert errors and swallowing thrown exceptions. -/
def consentSubmit (consent : Bool) (user : Option AppUser)
    (profileConsent : Bool) (up : UpsertOutcome) : ConsentResult :=
  if !consent then
    { profileConsent := profileConsent, granted := false,
      upsertAttempted := false, toast := none }
  else
    match user with
    | none =>
      { profileConsent := profileConsent, granted := false,
        upsertAttempted := false, toast := some consentLoginToast }
    | some _ =>
      match up with
      | .ok =>
        { profileConsent := true, granted := true,
          upsertAttempted := true, toast := some consentRecordedToast }
      | .err _ _ =>
        { profileConsent := profileConsent, granted := true,
          upsertAttempted := true, toast := some consentRecordedToast }
      | .thrown =>
        { profileConsent := profileConsent, granted := true,
          upsertAttempted := true, toast := none }

/-- C3: with an active session, granting consent twice in succession leaves the
stored consent flag true after both runs when the first upsert succeeds, no
matter how the second upsert fares; and access is granted on every run
regardless of the upsert outcome. -/
theorem consent_idempotent_never_blocking (u : AppUser) (flag0 : Bool)
    (o1 o2 : UpsertOutcome) (h1 : o1 = UpsertOutcome.ok) :
    ((consentSubmit true (some u) flag0 o1).profileConsent = true ∧
     (consentSubmit true (some u)
        (consentSubmit true (some u) flag0 o1).profileConsent o2).profileConsent
       = true ∧
     (consentSubmit true (some u) flag0 o1).granted = true ∧
     (consentSubmit true (some u)
        (consentSubmit true (some u) flag0 o1).profileConsent o2).granted
       = true) ∧
    (∀ (flag : Bool) (o : UpsertOutcome),
      (consentSubmit true (some u) flag o).granted = true) := by
  subst h1
  refine ⟨?_, ?_⟩
  · cases o2 <;> simp [consentSubmit]
  · intro flag o
    cases o <;> simp [consentSubmit]

/-- C3 witness: the theorem applied to a concrete user, with a successful
first upsert and a failing second upsert. -/
theorem consent_idempotent_never_blocking_witness :
    ((consentSubmit true (some demoUser) false UpsertOutcome.ok).profileConsent
       = true ∧
     (consentSubmit true (some demoUser)
        (consentSubmit true (some demoUser) false UpsertOutcome.ok).profileConsent
        (UpsertOutcome.err "42P01" "relation does not exist")).profileConsent
       = true ∧
     (consentSubmit true (some demoUser) false UpsertOutcome.ok).granted = true ∧
     (consentSubmit true (some demoUser)
        (consentSubmit true (some demoUser) false UpsertOutcome.ok).profileConsent
        (UpsertOutcome.err "42P01" "relation does not exist")).granted = true) ∧
    (∀ (flag : Bool) (o : UpsertOutcome),
      (consentSubmit true (some demoUser) flag o).granted = true) :=
  consent_idempotent_never_blocking demoUser false UpsertOutcome.ok
    (UpsertOutcome.err "42P01" "relation does not exist") rfl

/-- C9: running the consent submission with the checkbox checked but no user
session shows the login-error notice, does not grant access, attempts no
upsert, and leaves the stored consent flag unchanged. -/
theorem consent_no_user_rejected (flag : Bool) (o : UpsertOutcome) :
    (consentSubmit true none flag o).toast = some consentLoginToast ∧
    (consentSubmit true none flag o).granted = false ∧
    (consentSubmit true none flag o).upsertAttempted = false ∧
    (consentSubmit true none flag o).profileConsent = flag := by
  simp [consentSubmit]

/-! ## Trip listings (`Dashboard` user variant and `ScientistDashboard`) -/

/-- A trip row as consumed by the user-view dashboard. -/
structure TripU where
  id : String
  trip_number : Option String
  origin : String
  destination : String
  mode : String
  start_time : Option String
  end_time : Option String
  companions : Option String
  created_at : Option String
deriving DecidableEq, Repr

/-- A trip row as consumed by the research-view dashboard. -/
structure TripR where
  id : Nat
  user_id : String
  trip_number : Option String
  origin : String
  destination : String
  mode : String
  start_time : Option String
  end_time : Option String
  companions : Option String
  created_at : Option String
deriving DecidableEq, Repr

/-- Outcome of a backend `select` call: rows, an error object (in which case
the accompanying `data` is `null`), or a thrown exception with a message. -/
inductive FetchOutcome (α : Type) where
  | ok (rows : List α)
  | err (code message : String)
  | thrown (message : String)
deriving DecidableEq, Repr

/-- Displayed state of a trip listing after one fetch: the trip list and the
notice shown, if any. -/
structure ListViewState (α : Type) where
  trips : List α
  toast : Option Toast
deriving DecidableEq, Repr

/-- The user-variant fetch-failure notice, embedding the backend message. -/
def userFetchErrorToast (message : String) : Toast :=
  { title := "Data Load Error"
    description :=
      if message = "" then "Could not load your trips. Using offline data."
      else "Could not load your trips: " ++ message
    destructive := true }

/-- The user-variant catch-all notice. -/
def userFetchUnexpectedToast (message : String) : Toast :=
  { title := "Unexpected Error", description := message, destructive := true }

/-- The research-variant fetch-failure notice. -/
def allFetchErrorToast : Toast :=
  { title := "Data Load Error"
    description := "Could not load trip data. Please ensure database is set up."
    destructive := true }

/-- `Dashboard.fetchTrips`: aborts without a user; an error other than
`42P01` leaves the prior list and shows a notice; a `42P01` error falls
through to `setTrips(data || [])` with `data` null, clearing the list. -/
def fetchTripsStep (user : Option AppUser) (prior : List TripU)
    (res : FetchOutcome TripU) : ListViewState TripU :=
  match user with
  | none => { trips := prior, toast := none }
  | some _ =>
    match res with
    | .ok rows => { trips := rows, toast := none }
    | .err code message =>
      if code ≠ "42P01" then
        { trips := prior, toast := some (userFetchErrorToast message) }
      else
        { trips := [], toast := none }
    | .thrown message =>
      { trips := prior, toast := some (userFetchUnexpectedToast message) }

/-- `ScientistDashboard.fetchAllTrips`: same `42P01` handling; the catch-all
branch only logs. -/
def fetchAllTripsStep (prior : List TripR) (res : FetchOutcome TripR) :
    ListViewState TripR :=
  match res with
  | .ok rows => { trips := rows, toast := none }
  | .err code _ =>
    if code ≠ "42P01" then
      { trips := prior, toast := some allFetchErrorToast }
    else
      { trips := [], toast := none }
  | .thrown _ => { trips := prior, toast := none }

/-- C2: for both listing fetches, a backend error with code `42P01` empties
the displayed list and shows no notice, while any other error code shows a
notice and leaves the list at its prior value. -/
theorem fetch_error_code_handling (u : AppUser) (priorU : List TripU)
    (priorR : List TripR) (code message : String) :
    fetchTripsStep (some u) priorU (FetchOutcome.err code message) =
      (if code = "42P01" then { trips := [], toast := none }
       else { trips := priorU, toast := some (userFetchErrorToast message) }) ∧
    fetchAllTripsStep priorR (FetchOutcome.err code message) =
      (if code = "42P01" then { trips := [], toast := none }
       else { trips := priorR, toast := some allFetchErrorToast }) := by
  by_cases h : code = "42P01" <;> simp [fetchTripsStep, fetchAllTripsStep, h]

/-! ## Session/consent view state machine (`Index`) -/

/-- The dashboard toggle state. -/
inductive ViewChoice where
  | user
  | scientist
deriving DecidableEq, Repr

/-- An auth session as delivered by the backend client. -/
structure Session where
  user : AppUser
deriving DecidableEq, Repr

/-- Auth-change events delivered by the backend client's subscription. -/
inductive AuthEvent where
  | signedIn
  | signedOut
  | other
deriving DecidableEq, Repr

/-- The top-level page state owned by `Index`. -/
structure AppState where
  user : Option AppUser
  hasConsented : Bool
  currentView : ViewChoice
  isLoading : Bool
deriving DecidableEq, Repr

/-- The screen rendered by `Index`. -/
inductive Screen where
  | loading
  | auth
  | consent
  | userDashboard
  | scientistDashboard
deriving DecidableEq, Repr

/-- The `onAuthStateChange` handler: `setUser(session?.user ?? null)` and, on
a signed-out event, `setHasConsented(false)`. -/
def onAuthChange (event : AuthEvent) (session : Option Session)
    (st : AppState) : AppState :=
  { st with
    user := session.map Session.user
    hasConsented := if event = AuthEvent.signedOut then false else st.hasConsented }

/-- The `onAuthSuccess` callback: re-query the session, store its user, and
finish loading. -/
def onAuthSuccess (session : Option Session) (st : AppState) : AppState :=
  { st with user := session.map Session.user, isLoading := false }

/-- The render gating of `Index`: loading screen, then auth page without a
user, then consent page until consent, then the selected dashboard. -/
def render (st : AppState) : Screen :=
  if st.isLoading then Screen.loading
  else
    match st.user with
    | none => Screen.auth
    | some _ =>
      if !st.hasConsented then Screen.consent
      else
        match st.currentView with
        | ViewChoice.user => Screen.userDashboard
        | ViewChoice.scientist => Screen.scientistDashboard

/-- C6: from any state (either dashboard included), a signed-out notification
nulls the user and clears the consent flag; when not loading the auth page is
rendered, and a subsequent successful sign-in renders the consent page, not a
dashboard. -/
theorem signout_resets_state (st : AppState) (s : Session) :
    (onAuthChange AuthEvent.signedOut none st).user = none ∧
    (onAuthChange AuthEvent.signedOut none st).hasConsented = false ∧
    (st.isLoading = false →
      render (onAuthChange AuthEvent.signedOut none st) = Screen.auth) ∧
    render (onAuthSuccess (some s) (onAuthChange AuthEvent.signedOut none st)) =
      Screen.consent := by
  refine ⟨rfl, by simp [onAuthChange], ?_, ?_⟩
  · intro h
    simp [onAuthChange, render, h]
  · simp [onAuthChange, onAuthSuccess, render]

/-- C6 witness: the theorem applied to a state in which the research dashboard
is active. -/
theorem signout_resets_state_witness :
    (onAuthChange AuthEvent.signedOut none
        ⟨some demoUser, true, ViewChoice.scientist, false⟩).user = none ∧
    (onAuthChange AuthEvent.signedOut none
        ⟨some demoUser, true, ViewChoice.scientist, false⟩).hasConsented = false ∧
    ((⟨some demoUser, true, ViewChoice.scientist, false⟩ : AppState).isLoading
        = false →
      render (onAuthChange AuthEvent.signedOut none
        ⟨some demoUser, true, ViewChoice.scientist, false⟩) = Screen.auth) ∧
    render (onAuthSuccess (some ⟨demoUser⟩)
        (onAuthChange AuthEvent.signedOut none
          ⟨some demoUser, true, ViewChoice.scientist, false⟩)) = Screen.consent :=
  signout_resets_state ⟨some demoUser, true, ViewChoice.scientist, false⟩ ⟨demoUser⟩

/-! ## Research-view filtering (`ScientistDashboard` filter effect) -/

/-- Whether `pat` is a prefix of `hay`. -/
def hasPrefixL : List Char → List Char → Bool
  | _, [] => true
  | [], _ :: _ => false
  | a :: hay, b :: pat => a == b && hasPrefixL hay pat

/-- Whether `pat` occurs contiguously inside `hay`. -/
def hasSubstr : List Char → List Char → Bool
  | [], pat => pat.isEmpty
  | a :: hay, pat => hasPrefixL (a :: hay) pat || hasSubstr hay pat

/-- JS `String.prototype.includes`. -/
def jsIncludes (s pat : String) : Bool :=
  hasSubstr s.data pat.data

/-- The search predicate: case-insensitive substring match of the term against
the trip's origin or destination. -/
def searchPred (searchTerm : String) (t : TripR) : Bool :=
  jsIncludes (jsToLowerCase t.origin) (jsToLowerCase searchTerm) ||
  jsIncludes (jsToLowerCase t.destination) (jsToLowerCase searchTerm)

/-- The filter effect of `ScientistDashboard`: filter by the search term when
non-empty, then by the mode filter when it is not `"all"`. -/
def filterTrips (trips : List TripR) (searchTerm modeFilter : String) :
    List TripR :=
  let bySearch :=
    if searchTerm = "" then trips
    else trips.filter (fun t => searchPred searchTerm t)
  if modeFilter = "all" then bySearch
  else bySearch.filter (fun t => t.mode == modeFilter)

/-- C5: the filtered set is exactly the trips satisfying the logical AND of
the (vacuously true when empty) search predicate and the (vacuously true when
`"all"`) mode predicate; with an empty search term and mode filter `"all"` it
is the full fetched set. -/
theorem filter_is_conjunction (trips : List TripR) (s m : String) :
    filterTrips trips s m =
      trips.filter (fun t =>
        (s == "" || searchPred s t) && (m == "all" || t.mode == m)) ∧
    filterTrips trips "" "all" = trips := by
  constructor
  · by_cases hs : s = "" <;> by_cases hm : m = "all"
    · subst hs; subst hm
      simp [filterTrips]
    · subst hs
      have hmb : (m == "all") = false := beq_eq_false_iff_ne.mpr hm
      simp [filterTrips, hm, hmb]
    · subst hm
      have hsb : (s == "") = false := beq_eq_false_iff_ne.mpr hs
      simp [filterTrips, hs, hsb]
    · have hmb : (m == "all") = false := beq_eq_false_iff_ne.mpr hm
      have hsb : (s == "") = false := beq_eq_false_iff_ne.mpr hs
      simp [filterTrips, hs, hm, hsb, hmb, List.filter_filter, Bool.and_comm]
  · simp [filterTrips]

/-! ## Research-view statistics (`ScientistDashboard.getStats`) -/

/-- Number of trips in `l` whose mode is `m`. -/
def countMode (l : List TripR) (m : String) : Nat :=
  (l.filter (fun t => t.mode == m)).length

/-- One step of the `reduce` building `modeCounts`: increment the entry for
`m`, or append a fresh entry in insertion order. -/
def bumpMode (acc : List (String × Nat)) (m : String) : List (String × Nat) :=
  if acc.any (fun p => p.1 == m) then
    acc.map (fun p => if p.1 == m then (p.1, p.2 + 1) else p)
  else
    acc ++ [(m, 1)]

/-- The `modeCounts` accumulator object, as an insertion-ordered entry list. -/
def modeCounts (l : List TripR) : List (String × Nat) :=
  l.foldl (fun acc t => bumpMode acc t.mode) []

/-- `Object.entries(modeCounts).sort(([,a],[,b]) => b - a)`: the entries
sorted stably by descending count. -/
def modeCountsSorted (l : List TripR) : List (String × Nat) :=
  (modeCounts l).mergeSort (fun p q => decide (q.2 ≤ p.2))

/-- The derived statistics of the research view. -/
structure Stats where
  totalTrips : Nat
  uniqueUsers : Nat
  topMode : String
deriving DecidableEq, Repr

/-- `ScientistDashboard.getStats` over the filtered trip set. -/
def getStats (l : List TripR) : Stats :=
  { totalTrips := l.length
    uniqueUsers := (l.map (fun t => t.user_id)).dedup.length
    topMode :=
      match modeCountsSorted l with
      | [] => "N/A"
      | (m, n) :: _ => m ++ " (" ++ toString n ++ " trips)" }

/-- Invariant carried by the `modeCounts` accumulator: entry values agree with
`f`, and every mode with a non-zero `f`-value has an entry. -/
def ModeInv (acc : List (String × Nat)) (f : String → Nat) : Prop :=
  (∀ p ∈ acc, p.2 = f p.1) ∧ (∀ m, f m ≠ 0 → m ∈ acc.map Prod.fst)

theorem modeInv_congr {acc : List (String × Nat)} {f g : String → Nat}
    (hfg : ∀ m, f m = g m) (h : ModeInv acc f) : ModeInv acc g := by
  obtain ⟨h1, h2⟩ := h
  exact ⟨fun p hp => (h1 p hp).trans (hfg p.1),
         fun m hm => h2 m (by rw [hfg m]; exact hm)⟩

theorem modeInv_bump {acc : List (String × Nat)} {f : String → Nat} (m : String)
    (h : ModeInv acc f) :
    ModeInv (bumpMode acc m) (fun m2 => if m2 = m then f m2 + 1 else f m2) := by
  obtain ⟨h1, h2⟩ := h
  by_cases hc : acc.any (fun p => p.1 == m)
  · constructor
    · intro p hp
      rw [bumpMode, if_pos hc] at hp
      obtain ⟨q, hq, hqp⟩ := List.mem_map.mp hp
      by_cases hqm : q.1 = m
      · rw [if_pos (beq_iff_eq.mpr hqm)] at hqp
        subst hqp
        simp only [hqm, if_pos rfl]
        rw [← hqm]
        exact congrArg (· + 1) (h1 q hq)
      · rw [if_neg (by simpa using hqm)] at hqp
        subst hqp
        simp only [if_neg hqm]
        exact h1 q hq
    · intro m2 hm2
      have hkeys : (bumpMode acc m).map Prod.fst = acc.map Prod.fst := by
        rw [bumpMode, if_pos hc, List.map_map]
        refine List.map_congr_left ?_
        intro p _
        by_cases hpm : p.1 = m
        · simp [Function.comp, hpm]
        · simp [Function.comp, hpm]
      rw [hkeys]
      by_cases hm2m : m2 = m
      · subst hm2m
        obtain ⟨p, hp, hpm⟩ := List.any_eq_true.mp hc
        exact List.mem_map.mpr ⟨p, hp, beq_iff_eq.mp hpm⟩
      · have hm2f : f m2 ≠ 0 := by simpa [hm2m] using hm2
        exact h2 m2 hm2f
  · have hmf : f m = 0 := by
      by_contra hne
      have := h2 m hne
      obtain ⟨p, hp, hpm⟩ := List.mem_map.mp this
      exact hc (List.any_eq_true.mpr ⟨p, hp, beq_iff_eq.mpr hpm⟩)
    constructor
    · intro p hp
      rw [bumpMode, if_neg hc] at hp
      rcases List.mem_append.mp hp with hin | hin
      · have hpm : p.1 ≠ m := by
          intro heq
          exact hc (List.any_eq_true.mpr ⟨p, hin, beq_iff_eq.mpr heq⟩)
        simp only [if_neg hpm]
        exact h1 p hin
      · have : p = (m, 1) := by simpa using hin
        subst this
        simp [hmf]
    · intro m2 hm2
      rw [bumpMode, if_neg hc, List.map_append]
      by_cases hm2m : m2 = m
      · subst hm2m
        simp
      · have hm2f : f m2 ≠ 0 := by simpa [hm2m] using hm2
        exact List.mem_append_left _ (h2 m2 hm2f)

theorem countMode_nil (m : String) : countMode [] m = 0 := rfl

theorem countMode_cons (t : TripR) (rest : List TripR) (m : String) :
    countMode (t :: rest) m =
      (if t.mode = m then 1 else 0) + countMode rest m := by
  by_cases h : t.mode = m
  · simp [countMode, List.filter_cons, beq_iff_eq.mpr h, h]
    omega
  · simp [countMode, List.filter_cons, h, beq_eq_false_iff_ne.mpr h]

theorem modeInv_foldl (l : List TripR) :
    ∀ (acc : List (String × Nat)) (f : String → Nat), ModeInv acc f →
      ModeInv (l.foldl (fun a t => bumpMode a t.mode) acc)
        (fun m => f m + countMode l m) := by
  induction l with
  | nil =>
    intro acc f h
    exact modeInv_congr (fun m => by simp [countMode_nil]) h
  | cons t rest ih =>
    intro acc f h
    have hstep := modeInv_bump t.mode h
    have hrec := ih _ _ hstep
    refine modeInv_congr (fun m => ?_) hrec
    rw [countMode_cons]
    by_cases hm : m = t.mode
    · simp [hm]
      omega
    · have : ¬(t.mode = m) := fun hh => hm hh.symm
      simp [hm, this]

theorem modeCounts_spec (l : List TripR) :
    (∀ p ∈ modeCounts l, p.2 = countMode l p.1) ∧
    (∀ m, countMode l m ≠ 0 → m ∈ (modeCounts l).map Prod.fst) := by
  have h0 : ModeInv [] (fun _ => 0) := ⟨by simp, by simp⟩
  have h := modeInv_foldl l [] _ h0
  simp only [ModeInv, Nat.zero_add] at h
  exact h

theorem modeCounts_ne_nil {l : List TripR} (hl : l ≠ []) : modeCounts l ≠ [] := by
  cases l with
  | nil => exact absurd rfl hl
  | cons t rest =>
    intro hmc
    have hcount : countMode (t :: rest) t.mode ≠ 0 := by
      rw [countMode_cons]
      simp
    have := (modeCounts_spec (t :: rest)).2 t.mode hcount
    rw [hmc] at this
    simp at this

/-- C10: `getStats` is total on every filtered set: on the empty set it
returns counts 0 and `"N/A"` for the most-used mode; on a non-empty set the
most-used-mode entry names a mode together with its count, and that count is
maximal over all modes. -/
theorem getStats_total_and_top :
    getStats [] = { totalTrips := 0, uniqueUsers := 0, topMode := "N/A" } ∧
    ∀ l : List TripR, l ≠ [] → ∃ m n,
      (getStats l).topMode = m ++ " (" ++ toString n ++ " trips)" ∧
      n = countMode l m ∧ ∀ m2, countMode l m2 ≤ n := by
  constructor
  · simp [getStats, modeCountsSorted, modeCounts]
  · intro l hl
    have hperm : List.Perm (modeCountsSorted l) (modeCounts l) :=
      List.mergeSort_perm (modeCounts l) _
    have hsorted : (modeCountsSorted l).Pairwise
        (fun p q : String × Nat => decide (q.2 ≤ p.2) = true) := by
      have := @List.sorted_mergeSort (String × Nat)
        (fun p q => decide (q.2 ≤ p.2))
        (fun a b c hab hbc => by
          simp only [decide_eq_true_eq] at hab hbc ⊢
          omega)
        (fun a b => by
          simp only [Bool.or_eq_true, decide_eq_true_eq]
          omega)
        (modeCounts l)
      simpa [modeCountsSorted] using this
    have hne : modeCountsSorted l ≠ [] := by
      intro h
      have : modeCounts l = [] := by
        have := hperm.length_eq
        rw [h] at this
        exact List.length_eq_zero.mp this.symm
      exact modeCounts_ne_nil hl this
    obtain ⟨p, rest, heq⟩ : ∃ p rest, modeCountsSorted l = p :: rest := by
      cases h : modeCountsSorted l with
      | nil => exact absurd h hne
      | cons p rest => exact ⟨p, rest, rfl⟩
    obtain ⟨m, n⟩ := p
    have hmem : (m, n) ∈ modeCounts l := hperm.mem_iff.mp (by rw [heq]; simp)
    have hn : n = countMode l m := (modeCounts_spec l).1 (m, n) hmem
    refine ⟨m, n, ?_, hn, ?_⟩
    · simp [getStats, heq]
    · intro m2
      by_cases hz : countMode l m2 = 0
      · omega
      · obtain ⟨q, hq, hqm⟩ := List.mem_map.mp ((modeCounts_spec l).2 m2 hz)
        have hq2 : q.2 = countMode l m2 := by
          rw [(modeCounts_spec l).1 q hq, hqm]
        have hqsorted : q ∈ modeCountsSorted l := hperm.mem_iff.mpr hq
        rw [heq] at hqsorted
        rcases List.mem_cons.mp hqsorted with hhead | htail
        · rw [← hq2, hhead]
        · have := (List.pairwise_cons.mp (heq ▸ hsorted)).1 q htail
          simp only [decide_eq_true_eq] at this
          omega

/-- A demo trip row used to instantiate the statistics theorem. -/
def demoTripR : TripR :=
  { id := 1, user_id := "user-1", trip_number := none, origin := "Home",
    destination := "Office", mode := "bus", start_time := none,
    end_time := none, companions := none, created_at := none }

/-- C10 witness: the non-empty part of the theorem applied to a one-trip set. -/
theorem getStats_total_and_top_witness :
    ([demoTripR] : List TripR) ≠ [] ∧
    ∃ m n,
      (getStats [demoTripR]).topMode = m ++ " (" ++ toString n ++ " trips)" ∧
      n = countMode [demoTripR] m ∧ ∀ m2, countMode [demoTripR] m2 ≤ n :=
  ⟨by simp, getStats_total_and_top.2 [demoTripR] (by simp)⟩

/-! ## CSV export (`ScientistDashboard.exportData`) -/

/-- The fixed nine-column header. -/
def csvHeader : List String :=
  ["Trip ID", "User ID", "Trip Number", "Origin", "Destination", "Mode",
   "Start Time", "End Time", "Companions"]

/-- The download filename. -/
def exportFileName : String := "natpac_trip_data.csv"

/-- JS `x || ""` on an optional string field. -/
def orEmpty (o : Option String) : String := o.getD ""

/-- The nine serialized fields of one exported trip row. -/
def tripRowFields (t : TripR) : List String :=
  [toString t.id, t.user_id, orEmpty t.trip_number, t.origin, t.destination,
   t.mode, orEmpty t.start_time, orEmpty t.end_time, orEmpty t.companions]

/-- JS `Array.prototype.join(sep)` for a one-character separator, at the
character level. -/
def joinWithChar (c : Char) : List (List Char) → List Char
  | [] => []
  | [r] => r
  | r :: s :: rs => r ++ c :: joinWithChar c (s :: rs)

/-- `row.join(",")`: one CSV line from its fields. -/
def rowChars (fields : List String) : List Char :=
  joinWithChar ',' (fields.map String.data)

/-- The full CSV text produced by `exportData`: header line and one line per
trip, lines joined with newlines. -/
def csvChars (trips : List TripR) : List Char :=
  joinWithChar '\n' ((csvHeader :: trips.map tripRowFields).map rowChars)

/-- Split a character sequence at every occurrence of `c`; always returns at
least one (possibly empty) segment.  This is the re-reading of the produced
text into lines (and of a line into columns). -/
def splitOnChar (c : Char) : List Char → List (List Char)
  | [] => [[]]
  | x :: xs =>
    match splitOnChar c xs with
    | [] => [[]]
    | y :: ys => if x = c then [] :: y :: ys else (x :: y) :: ys

/-- Number of data rows obtained by re-reading a CSV text: all lines except
the header line. -/
def csvDataRowCount (text : List Char) : Nat :=
  (splitOnChar '\n' text).length - 1

theorem splitOnChar_ne_nil (c : Char) (l : List Char) : splitOnChar c l ≠ [] := by
  cases l with
  | nil => simp [splitOnChar]
  | cons x xs =>
    rw [splitOnChar]
    cases h : splitOnChar c xs with
    | nil => simp
    | cons y ys =>
      by_cases hx : x = c <;> simp [hx]

theorem splitOnChar_not_mem {c : Char} {l : List Char} (h : c ∉ l) :
    splitOnChar c l = [l] := by
  induction l with
  | nil => rfl
  | cons x xs ih =>
    have hx : x ≠ c := fun he => h (he ▸ List.mem_cons_self x xs)
    have hxs : c ∉ xs := fun hm => h (List.mem_cons_of_mem x hm)
    rw [splitOnChar, ih hxs]
    simp [hx]

theorem splitOnChar_append {c : Char} {r : List Char} (h : c ∉ r)
    (t : List Char) : splitOnChar c (r ++ c :: t) = r :: splitOnChar c t := by
  induction r with
  | nil =>
    simp only [List.nil_append]
    rw [splitOnChar]
    cases hs : splitOnChar c t with
    | nil => exact absurd hs (splitOnChar_ne_nil c t)
    | cons y ys => simp
  | cons x xs ih =>
    have hx : x ≠ c := fun he => h (he ▸ List.mem_cons_self x xs)
    have hxs : c ∉ xs := fun hm => h (List.mem_cons_of_mem x hm)
    simp only [List.cons_append]
    rw [splitOnChar, ih hxs]
    simp [hx]

theorem splitOnChar_joinWithChar (c : Char) :
    ∀ rows : List (List Char), rows ≠ [] → (∀ r ∈ rows, c ∉ r) →
      splitOnChar c (joinWithChar c rows) = rows := by
  intro rows
  induction rows with
  | nil => intro h; exact absurd rfl h
  | cons r rest ih =>
    intro _ hmem
    cases rest with
    | nil =>
      rw [joinWithChar]
      exact splitOnChar_not_mem (hmem r (List.mem_cons_self r []))
    | cons s rs =>
      rw [joinWithChar,
        splitOnChar_append (hmem r (List.mem_cons_self r (s :: rs))) _]
      rw [ih (by simp) (fun q hq => hmem q (List.mem_cons_of_mem r hq))]

theorem not_mem_joinWithChar {c d : Char} (hcd : c ≠ d) :
    ∀ rows : List (List Char), (∀ r ∈ rows, c ∉ r) →
      c ∉ joinWithChar d rows := by
  intro rows
  induction rows with
  | nil => intro _; simp [joinWithChar]
  | cons r rest ih =>
    intro hmem
    cases rest with
    | nil =>
      rw [joinWithChar]
      exact hmem r (List.mem_cons_self r [])
    | cons s rs =>
      rw [joinWithChar]
      intro hin
      rcases List.mem_append.mp hin with hin | hin
      · exact hmem r (List.mem_cons_self r (s :: rs)) hin
      · rcases List.mem_cons.mp hin with he | hin
        · exact hcd he
        · exact ih (fun q hq => hmem q (List.mem_cons_of_mem r hq)) hin

/-- A trip whose companions free text contains a newline (the companions input
is a multi-line textarea). -/
def newlineTrip : TripR :=
  { id := 1, user_id := "user-1", trip_number := none, origin := "Home",
    destination := "Office", mode := "car", start_time := none,
    end_time := none, companions := some "two friends\nand a dog",
    created_at := none }

/-- C4 counterexample: exporting a single trip whose companions field contains
a newline and re-reading the text yields two data rows, not one. -/
theorem csv_roundtrip_counterexample :
    csvDataRowCount (csvChars [newlineTrip]) = 2 ∧
    ([newlineTrip] : List TripR).length = 1 := by
  constructor
  · rfl
  · rfl

/-- C4 amended: for every filtered trip set none of whose serialized fields
contains a newline character, re-reading the exported text yields exactly one
line per trip plus the header line — hence as many data rows as trips — the
first line is the header row, that header line splits at commas into the nine
column names in their fixed order, and the download filename is
`natpac_trip_data.csv`. -/
theorem csv_roundtrip (trips : List TripR)
    (h : ∀ t ∈ trips, ∀ f ∈ tripRowFields t, '\n' ∉ f.data) :
    splitOnChar '\n' (csvChars trips) =
      (csvHeader :: trips.map tripRowFields).map rowChars ∧
    csvDataRowCount (csvChars trips) = trips.length ∧
    (splitOnChar '\n' (csvChars trips)).head? = some (rowChars csvHeader) ∧
    splitOnChar ',' (rowChars csvHeader) = csvHeader.map String.data ∧
    exportFileName = "natpac_trip_data.csv" := by
  have hsplit : splitOnChar '\n' (csvChars trips) =
      (csvHeader :: trips.map tripRowFields).map rowChars := by
    rw [csvChars]
    refine splitOnChar_joinWithChar _ _ (by simp) ?_
    intro row hrow
    rcases List.mem_map.mp hrow with ⟨fields, hfields, hfr⟩
    rcases List.mem_cons.mp hfields with hhead | htail
    · subst hhead
      subst hfr
      decide
    · rcases List.mem_map.mp htail with ⟨t, ht, hft⟩
      subst hfr
      subst hft
      refine not_mem_joinWithChar (by decide) _ ?_
      intro r hr
      rcases List.mem_map.mp hr with ⟨f, hf, hfd⟩
      subst hfd
      exact h t ht f hf
  refine ⟨hsplit, ?_, ?_, by decide, rfl⟩
  · rw [csvDataRowCount, hsplit]
    simp
  · rw [hsplit]
    simp

/-- A trip whose serialized fields are all newline-free. -/
def cleanTrip : TripR :=
  { id := 2, user_id := "user-2", trip_number := some "T002", origin := "Home",
    destination := "Central Station", mode := "bus",
    start_time := some "2024-01-01T08:00", end_time := some "2024-01-01T08:30",
    companions := some "one friend", created_at := none }

/-- C4 amended witness: the round-trip applied to a concrete newline-free
trip set. -/
theorem csv_roundtrip_witness :
    (∀ t ∈ ([cleanTrip] : List TripR), ∀ f ∈ tripRowFields t, '\n' ∉ f.data) ∧
    (splitOnChar '\n' (csvChars [cleanTrip]) =
      (csvHeader :: ([cleanTrip] : List TripR).map tripRowFields).map rowChars ∧
    csvDataRowCount (csvChars [cleanTrip]) = ([cleanTrip] : List TripR).length ∧
    (splitOnChar '\n' (csvChars [cleanTrip])).head? = some (rowChars csvHeader) ∧
    splitOnChar ',' (rowChars csvHeader) = csvHeader.map String.data ∧
    exportFileName = "natpac_trip_data.csv") :=
  ⟨by decide, csv_roundtrip [cleanTrip] (by decide)⟩

end TravelLog
